import Mathlib

/-!
Verification of `cycling/rads_sla2ioda.py`, a converter from RADS sea-level-anomaly
NetCDF files to the IODA observation format.

The Python module is shallowly embedded below.  Python floats are modelled as
rationals (`ℚ`), machine integers as `ℤ`/`ℕ`, NetCDF files as finite association
structures, and fallible steps as `Except`.  Python's `round` builtin
(round-half-to-even) is modelled by `rhe`; `datetime.date` / `datetime.datetime`
arithmetic of the CPython standard library is modelled by the standard civil-calendar
day-numbering algorithms (`days_from_civil` / `civil_from_days`, proleptic Gregorian,
exactly the calendar `datetime` implements) together with explicit microsecond
quantisation for `timedelta(days=...)`.
-/

namespace RadsSla2Ioda

/-- Round half to even, the semantics of Python's builtin `round` on a real
number: nearest integer, ties going to the even neighbour. -/
def rhe (q : ℚ) : ℤ :=
  if q - ⌊q⌋ < 1/2 then ⌊q⌋
  else if 1/2 < q - ⌊q⌋ then ⌊q⌋ + 1
  else if ⌊q⌋ % 2 = 0 then ⌊q⌋ else ⌊q⌋ + 1

/-- Day number of a proleptic-Gregorian calendar date, with day 0 being
1970-01-01.  This models the date arithmetic performed by Python's
`datetime.date` objects (construction, subtraction, ordering). -/
def days_from_civil (y m d : ℤ) : ℤ :=
  let yy := if m ≤ 2 then y - 1 else y
  let era := yy / 400
  let yoe := yy - era * 400
  let mp := (m + 9) % 12
  let doy := (153 * mp + 2) / 5 + d - 1
  let doe := yoe * 365 + yoe / 4 - yoe / 100 + doy
  era * 146097 + doe - 719468

/-- Inverse of `days_from_civil`: the (year, month, day) of a day number
(day 0 = 1970-01-01).  Models `datetime.date`'s field accessors and
`strftime` date fields. -/
def civil_from_days (z : ℤ) : ℤ × ℤ × ℤ :=
  let z' := z + 719468
  let era := z' / 146097
  let doe := z' - era * 146097
  let yoe := (doe - doe / 1460 + doe / 36524 - doe / 146096) / 365
  let y := yoe + era * 400
  let doy := doe - (365 * yoe + yoe / 4 - yoe / 100)
  let mp := (5 * doy + 2) / 153
  let d := doy - (153 * mp + 2) / 5 + 1
  let m := if mp < 10 then mp + 3 else mp - 9
  (if m ≤ 2 then y + 1 else y, m, d)

/-- `obsvars = ['seaSurfaceHeightAnomaly', 'sla']` from the module header. -/
def obsvars : List String := ["seaSurfaceHeightAnomaly", "sla"]

/-- One entry of `locationKeyList`: `(output name, value type, unit, source name)`. -/
structure LocationKey where
  iodaName : String
  dtypestr : String
  unit : String
  radsName : String
deriving DecidableEq

/-- The `locationKeyList` table from the module header. -/
def locationKeyList : List LocationKey :=
  [⟨"latitude", "float", "degrees_north", "lat"⟩,
   ⟨"longitude", "float", "degrees_east", "lon"⟩,
   ⟨"dateTime", "long", "seconds since 1970-01-01T00:00:00Z", "time_mjd"⟩]

/-- `meta_keys = [m_item[0] for m_item in locationKeyList]`. -/
def meta_keys : List String := locationKeyList.map LocationKey.iodaName

/-- The unit string of the `dateTime` location key
(`iso8601_string = locationKeyList[meta_keys.index('dateTime')][2]`). -/
def iso8601_string : String := "seconds since 1970-01-01T00:00:00Z"

/-- The Python slice `iso8601_string[14:-1]`, fed to `datetime.fromisoformat`. -/
def epochString : String := String.mk ((iso8601_string.data.drop 14).dropLast)

/-- Day number of the target epoch `epoch = fromisoformat("1970-01-01T00:00:00")`
(obtained from `iso8601_string[14:-1]`, see `epochString_eq`). -/
def epochDays : ℤ := days_from_civil 1970 1 1

/-- Day number of `refTimeRads = fromisoformat("1858-11-17T00:00:00")`, the RADS
(modified-Julian-date) epoch. -/
def refTimeRadsDays : ℤ := days_from_civil 1858 11 17

/-- `datetime.timedelta(days=d)` for a float `d`: the timedelta holds an integer
count of microseconds, obtained by rounding `d` days half-to-even at microsecond
resolution. -/
def timedelta_microseconds (d : ℚ) : ℤ := rhe (d * 86400000000)

/-- The per-element time conversion from `radsSsha2ioda._read`:
`np.int64(round((refTimeRads + datetime.timedelta(days=d) - epoch).total_seconds()))`.
The datetime difference is `(refTimeRadsDays - epochDays)` whole days plus the
timedelta; `total_seconds()` divides its microsecond count by `10^6`; `round`
rounds half-to-even. -/
def normalize_time (d : ℚ) : ℤ :=
  rhe (((refTimeRadsDays - epochDays) * 86400 : ℤ) + (timedelta_microseconds d : ℚ) / 1000000)

/-! The fill-value constants of the module header.  `nc.default_fillvals` are the
netCDF library defaults; the two floating sentinels are the exact value of the
IEEE number `9.9692099683868690e+36` (`15 * 2^119`). -/

/-- `float_missing_value = nc.default_fillvals['f4']`. -/
def float_missing_value : ℚ := 15 * 2 ^ 119

/-- `int_missing_value = nc.default_fillvals['i4']`. -/
def int_missing_value : ℤ := -2147483647

/-- `double_missing_value = nc.default_fillvals['f8']`. -/
def double_missing_value : ℚ := 15 * 2 ^ 119

/-- `long_missing_value = nc.default_fillvals['i8']`. -/
def long_missing_value : ℤ := -9223372036854775806

/-- `string_missing_value = '_'`. -/
def string_missing_value : String := "_"

/-- A NetCDF attribute value or IODA variable-attribute value: a string, a
floating-point number (modelled as `ℚ`), or a machine integer. -/
inductive AttrVal where
  | str (s : String)
  | flo (q : ℚ)
  | int (n : ℤ)
deriving DecidableEq

/-- The `missing_vals` dictionary, keyed by the declared type string. -/
def missing_vals (dtypestr : String) : AttrVal :=
  if dtypestr = "string" then .str string_missing_value
  else if dtypestr = "integer" then .int int_missing_value
  else if dtypestr = "long" then .int long_missing_value
  else if dtypestr = "float" then .flo float_missing_value
  else .flo double_missing_value

/-- The IODA group of a variable, i.e. the second component of the keys of
`self.data` / `self.varAttrs` (`iconv.MetaDataName()`, `iconv.OvalName()`,
`iconv.OerrName()`, `iconv.OqcName()`). -/
inductive Role where
  | metaData
  | obsVal
  | obsErr
  | qc
deriving DecidableEq

/-- A NetCDF variable: its data as a flat array (numeric values as `ℚ`) and its
optional `units` and `_FillValue` attributes. -/
structure NcVar where
  data : List ℚ
  units : Option String
  fillValue : Option ℚ
deriving DecidableEq

/-- A NetCDF source file: named dimensions and named variables. -/
structure NcFile where
  dims : List (String × Nat)
  vars : List (String × NcVar)
deriving DecidableEq

/-- Dictionary lookup by key (a `KeyError` on a miss is modelled by `none`). -/
def dictGet {κ α : Type} [DecidableEq κ] (key : κ) : List (κ × α) → Option α
  | [] => none
  | (k, v) :: rest => if k = key then some v else dictGet key rest

/-- `ncd.dimensions[name].size`. -/
def NcFile.dim (f : NcFile) (name : String) : Option Nat := dictGet name f.dims

/-- `ncd.variables[name]`. -/
def NcFile.var (f : NcFile) (name : String) : Option NcVar := dictGet name f.vars

/-- The exceptions `_read` can raise: a missing dimension, a missing variable, a
missing variable attribute, or an out-of-range element access. -/
inductive ReadErr where
  | missingDim (name : String)
  | missingVar (name : String)
  | missingAttr (varName attrName : String)
  | indexError (varName : String) (i : Nat)
deriving DecidableEq

/-- One of the assembled output arrays (`np.float32`/`np.float64` arrays as `ℚ`
lists, `np.int32`/`np.int64` arrays as `ℤ` lists). -/
inductive DataArr where
  | floats (xs : List ℚ)
  | ints (xs : List ℤ)
deriving DecidableEq

/-- Length of an output array. -/
def DataArr.length : DataArr → Nat
  | .floats xs => xs.length
  | .ints xs => xs.length

/-- The inner loop of the `dateTime` branch of `_read`:
`for i in range(nlocs): ... np.int64(round((refTimeRads + timedelta(days=ncd.variables[locKeyRads][i]) - epoch).total_seconds()))`.
Each iteration looks `locKeyRads` up in `ncd.variables` and indexes element `i`. -/
def readTimes (ncd : NcFile) (locKeyRads : String) : List Nat → Except ReadErr (List ℤ)
  | [] => .ok []
  | i :: is =>
    match ncd.var locKeyRads with
    | none => .error (.missingVar locKeyRads)
    | some v =>
      match v.data.get? i with
      | none => .error (.indexError locKeyRads i)
      | some d =>
        match readTimes ncd locKeyRads is with
        | .error e => .error e
        | .ok rest => .ok (normalize_time d :: rest)

/-- The body of the `for (locKeyIoda, dtypestr, _, locKeyRads) in locationKeyList`
loop of `_read` for one key: the `dateTime` key is converted element-wise into an
`np.int64` array, every other key is read whole as an array of its declared float
type (`np.array(ncd.variables[locKeyRads][:], dtype=dtypes[dtypestr])`, a cast
that is the identity on the values). -/
def readMeta (ncd : NcFile) (nlocs : Nat) (k : LocationKey) : Except ReadErr DataArr :=
  if k.iodaName = "dateTime" then
    match readTimes ncd k.radsName (List.range nlocs) with
    | .error e => .error e
    | .ok ys => .ok (.ints ys)
  else
    match ncd.var k.radsName with
    | none => .error (.missingVar k.radsName)
    | some v => .ok (.floats v.data)

/-- The `locationKeyList` loop of `_read`, producing the `self.data` entries
`(locKeyIoda, metaDataName)` in table order. -/
def readMetas (ncd : NcFile) (nlocs : Nat) :
    List LocationKey → Except ReadErr (List ((String × Role) × DataArr))
  | [] => .ok []
  | k :: ks =>
    match readMeta ncd nlocs k with
    | .error e => .error e
    | .ok arr =>
      match readMetas ncd nlocs ks with
      | .error e => .error e
      | .ok rest => .ok (((k.iodaName, Role.metaData), arr) :: rest)

/-- The `self.varAttrs` entries written by `__init__` before `_read` runs:
for every location key, its `_FillValue` (from `missing_vals`) and its `units`. -/
def initVarAttrs : List (((String × Role) × String) × AttrVal) :=
  (locationKeyList.map fun k =>
    [(((k.iodaName, Role.metaData), "_FillValue"), missing_vals k.dtypestr),
     (((k.iodaName, Role.metaData), "units"), AttrVal.str k.unit)]).flatten

/-- The assembled state of a `radsSsha2ioda` object after `_read` returns:
`nlocs`, `self.dimDict`, `self.varDims`, `self.data` and `self.varAttrs`
(both association lists in insertion order). -/
structure ObsOutput where
  nlocs : Nat
  dimDict : List (String × Nat)
  varDims : List (String × List String)
  data : List ((String × Role) × DataArr)
  varAttrs : List (((String × Role) × String) × AttrVal)
deriving DecidableEq

/-- `radsSsha2ioda._read`, statement by statement:
`nlocs = ncd.dimensions['time'].size`; `self.dimDict`; `self.varDims`;
the `locationKeyList` loop; the five `self.varAttrs` assignments for the
observation variable (`units` and `_FillValue` read from the source `sla`
variable, the QC fill value from `int_missing_value`); the three `self.data`
observation entries (the `sla` values passed through unchanged, an all-zero
`np.float32` error array and an all-zero `np.int32` QC array of length
`nlocs`).  Any failing lookup raises, ending the function early. -/
def readBody (ncd : NcFile) : Except ReadErr ObsOutput :=
  match ncd.dim "time" with
  | none => .error (.missingDim "time")
  | some nlocs =>
    match readMetas ncd nlocs locationKeyList with
    | .error e => .error e
    | .ok metaArrs =>
      match ncd.var (obsvars[1]!) with
      | none => .error (.missingVar (obsvars[1]!))
      | some slaVar =>
        match slaVar.units with
        | none => .error (.missingAttr (obsvars[1]!) "units")
        | some slaUnits =>
          match slaVar.fillValue with
          | none => .error (.missingAttr (obsvars[1]!) "_FillValue")
          | some slaFill =>
            .ok { nlocs := nlocs
                , dimDict := [("Location", nlocs)]
                , varDims := [(obsvars[0]!, ["Location"])]
                , data := metaArrs ++
                    [((obsvars[0]!, Role.obsVal), DataArr.floats slaVar.data),
                     ((obsvars[0]!, Role.obsErr), DataArr.floats (List.replicate nlocs 0)),
                     ((obsvars[0]!, Role.qc), DataArr.ints (List.replicate nlocs 0))]
                , varAttrs := initVarAttrs ++
                    [(((obsvars[0]!, Role.obsVal), "units"), AttrVal.str slaUnits),
                     (((obsvars[0]!, Role.obsErr), "units"), AttrVal.str slaUnits),
                     (((obsvars[0]!, Role.obsVal), "_FillValue"), AttrVal.flo slaFill),
                     (((obsvars[0]!, Role.obsErr), "_FillValue"), AttrVal.flo slaFill),
                     (((obsvars[0]!, Role.qc), "_FillValue"), AttrVal.int int_missing_value)] }

/-- `_read` together with the fate of the source handle.  The source has
`ncd = nc.Dataset(self.file_input)` as its first statement and `ncd.close()` as
its last, with no `try`/`finally` or `with` block in between, so the handle is
closed exactly when every intermediate statement succeeded; when a statement
raises, the exception propagates with the handle still open.  The boolean
records whether `ncd.close()` was reached. -/
def readTrace (ncd : NcFile) : Except ReadErr ObsOutput × Bool :=
  match readBody ncd with
  | .ok out => (.ok out, true)
  | .error e => (.error e, false)

/-! The `main` function: argument table, date parsing, the satellite/day loop,
and the global attributes assembled by `radsSsha2ioda.__init__`. -/

/-- A Python `datetime.datetime` value: calendar fields plus an optional UTC
offset (`tzinfo`); `none` means a naive datetime. -/
structure PyDatetime where
  year : ℤ
  month : ℤ
  day : ℤ
  hour : Nat
  minute : Nat
  second : Nat
  tzOffsetMinutes : Option ℤ
deriving DecidableEq

/-- `datetime.datetime.combine(jday, datetime.time(12))`: noon on the given
day, naive (no tzinfo). -/
def fdateOf (jday : ℤ) : PyDatetime :=
  ⟨(civil_from_days jday).1, (civil_from_days jday).2.1, (civil_from_days jday).2.2,
   12, 0, 0, none⟩

/-- Left-pad the decimal representation of a natural number with zeros to the
given width (the behaviour of `strftime`'s numeric directives). -/
def padNat (width : Nat) (n : Nat) : String :=
  String.mk (List.replicate (width - (toString n).length) '0') ++ toString n

/-- The `%z` directive of `strftime`: `±HHMM` for an aware datetime and the
empty string for a naive one (CPython documented behaviour). -/
def strftimeZ (dt : PyDatetime) : String :=
  match dt.tzOffsetMinutes with
  | none => ""
  | some off => (if off < 0 then "-" else "+") ++ padNat 2 (off.natAbs / 60) ++ padNat 2 (off.natAbs % 60)

/-- The `%Y-%m-%d` part of `self.date.strftime('%Y-%m-%dT%H:%M:%S%z')`. -/
def strftimeDate (dt : PyDatetime) : String :=
  padNat 4 dt.year.toNat ++ "-" ++ padNat 2 dt.month.toNat ++ "-" ++ padNat 2 dt.day.toNat

/-- `self.date.strftime('%Y-%m-%dT%H:%M:%S%z')`. -/
def strftimeRef (dt : PyDatetime) : String :=
  strftimeDate dt ++ "T" ++ padNat 2 dt.hour ++ ":" ++ padNat 2 dt.minute ++ ":" ++
    padNat 2 dt.second ++ strftimeZ dt

/-- `os.path.basename(__file__)`. -/
def converterName : String := "rads_sla2ioda.py"

/-- The `description` global attribute. -/
def descriptionText : String :=
  "Sea Surface Height Anomaly (SSHA) observations from NESDIS"

/-- A global-attribute value (string or integer). -/
inductive GAttrVal where
  | str (s : String)
  | int (n : ℤ)
deriving DecidableEq

/-- `self.globalAttrs` as assembled by `radsSsha2ioda.__init__`. -/
def globalAttrs (file_input : String) (date : PyDatetime) : List (String × GAttrVal) :=
  [("converter", .str converterName),
   ("ioda_version", .int 2),
   ("sourceFiles", .str file_input),
   ("datetimeReference", .str (strftimeRef date)),
   ("description", .str descriptionText)]

/-- One row of the `argparse` configuration in `main`. -/
structure ArgSpec where
  short : String
  long : String
  required : Bool
deriving DecidableEq

/-- The four `parser.add_argument` calls of `main`, in source order. -/
def cliArgs : List ArgSpec :=
  [⟨"-s", "--start", true⟩,
   ⟨"-e", "--end", true⟩,
   ⟨"-i", "--input_directory", true⟩,
   ⟨"-o", "--output_directory", true⟩]

/-- `sats = ['c2', 'j2', 'sa']`. -/
def sats : List String := ["c2", "j2", "sa"]

/-- Interpret a run of characters as a decimal numeral, the way `int(...)`
reads an all-digit string. -/
def digitsToNat (cs : List Char) : Nat :=
  cs.foldl (fun n c => 10 * n + (c.toNat - 48)) 0

/-- The Python slice-and-convert `int(s[a:b])` for an all-digit string. -/
def sliceNat (s : String) (a b : Nat) : Nat :=
  digitsToNat ((s.data.drop a).take (b - a))

/-- Date-argument parsing from `main`, for either `--start` or `--end`:
a string of length 8 is read as `YYYYMMDD`, a string of length 7 as `YYYYDOY`
(January 1st plus `DOY - 1` days), and any other length hits
`sys.exit('Error: invalid <label> date')`, which terminates the process with a
non-zero status before any file is touched.  The result is a day number. -/
def parseDateArg (label : String) (s : String) : Except String ℤ :=
  if s.length = 8 then
    .ok (days_from_civil (sliceNat s 0 4) (sliceNat s 4 6) (sliceNat s 6 8))
  else if s.length = 7 then
    .ok (days_from_civil (sliceNat s 0 4) 1 1 + ((sliceNat s 4 7 : ℤ) - 1))
  else
    .error ("Error: invalid " ++ label ++ " date")

/-- `sat + '_' + jday.strftime('%Y%j') + '.nc'`: the candidate file name for
one satellite and one day (`%j` is the zero-padded three-digit day of year). -/
def candidateName (sat : String) (jday : ℤ) : String :=
  sat ++ "_" ++ padNat 4 (civil_from_days jday).1.toNat ++
    padNat 3 (jday - days_from_civil (civil_from_days jday).1 1 1 + 1).toNat ++ ".nc"

/-- The days visited by `while jday <= jday_end`, starting at `jday_st`. -/
def dayRange (jday_st jday_end : ℤ) : List ℤ :=
  (List.range (jday_end + 1 - jday_st).toNat).map fun i => jday_st + i

/-- One run of the conversion pipeline: the resolved input path handed to
`radsSsha2ioda` and the nominal datetime `fdate` handed with it. -/
structure Invocation where
  path : String
  nominalTime : PyDatetime
deriving DecidableEq

/-- The batch loop of `main`: for each hardcoded satellite and each day of the
inclusive range, build the candidate path and invoke the conversion exactly when
`os.path.isfile` accepts it; missing candidates are skipped without any error. -/
def batchLoop (jday_st jday_end : ℤ) (dir : String) (isfile : String → Bool) :
    List Invocation :=
  (sats.map fun sat =>
    ((dayRange jday_st jday_end).filter fun jday =>
        isfile (dir ++ "/" ++ candidateName sat jday)).map fun jday =>
      ⟨dir ++ "/" ++ candidateName sat jday, fdateOf jday⟩).flatten

/-- `main` after argument parsing: parse `--start`, then `--end` (each failure
exiting the process before any file I/O), then run the batch loop over the
input directory.  The returned list is the sequence of conversion invocations. -/
def mainBatch (startArg endArg : String) (dir : String) (isfile : String → Bool) :
    Except String (List Invocation) :=
  match parseDateArg "start" startArg with
  | .error msg => .error msg
  | .ok jday_st =>
    match parseDateArg "end" endArg with
    | .error msg => .error msg
    | .ok jday_end => .ok (batchLoop jday_st jday_end dir isfile)

/-! Further definitions used by the verification: the timezone-suffix test, the
input-file contract from the specification, the spec-side candidate set, and
concrete example files. -/

/-- Whether a character list ends in a `±HHMM` timezone suffix. -/
def hasTzOffsetL (cs : List Char) : Bool :=
  match cs.reverse with
  | m2 :: m1 :: h2 :: h1 :: sgn :: _ =>
    (sgn == '+' || sgn == '-') && h1.isDigit && h2.isDigit && m1.isDigit && m2.isDigit
  | _ => false

/-- Whether a string ends in a `±HHMM` timezone suffix, the shape `strftime`'s
`%z` emits for an aware datetime. -/
def hasTzOffset (s : String) : Bool := hasTzOffsetL s.data

/-- The input-file contract (spec section 6): a `time` dimension of size `n` and
variables `lat`, `lon`, `sla` of length `n`. -/
def InputContract (f : NcFile) (n : Nat) : Prop :=
  f.dim "time" = some n ∧
  (∃ v, f.var "lat" = some v ∧ v.data.length = n) ∧
  (∃ v, f.var "lon" = some v ∧ v.data.length = n) ∧
  (∃ v, f.var "sla" = some v ∧ v.data.length = n)

/-- Follows the spec's words (for the refinement statement about batch mode):
the full candidate set, one entry per hardcoded satellite and per day of the
inclusive range, named `{satellite}_{YYYYDDD}.nc` inside the input directory,
with nominal time 12:00:00 on that day, before any existence check. -/
def specCandidates (jday_st jday_end : ℤ) (dir : String) : List Invocation :=
  (sats.map fun sat =>
    (dayRange jday_st jday_end).map fun jday =>
      ⟨dir ++ "/" ++ candidateName sat jday, fdateOf jday⟩).flatten

/-- A concrete well-formed source file with three locations, used to instantiate
the claims about `_read`. -/
def exFile : NcFile :=
  { dims := [("time", 3)]
  , vars :=
      [("lat", ⟨[10, 20, 30], none, none⟩),
       ("lon", ⟨[40, 50, 60], none, none⟩),
       ("time_mjd", ⟨[40587, 40588, 40589], none, none⟩),
       ("sla", ⟨[1, 2, 3], some "m", some (-999)⟩)] }

/-- The object `_read` assembles from `exFile`. -/
def exOut : ObsOutput :=
  { nlocs := 3
  , dimDict := [("Location", 3)]
  , varDims := [("seaSurfaceHeightAnomaly", ["Location"])]
  , data :=
      [(("latitude", Role.metaData), .floats [10, 20, 30]),
       (("longitude", Role.metaData), .floats [40, 50, 60]),
       (("dateTime", Role.metaData),
        .ints [normalize_time 40587, normalize_time 40588, normalize_time 40589]),
       (("seaSurfaceHeightAnomaly", Role.obsVal), .floats [1, 2, 3]),
       (("seaSurfaceHeightAnomaly", Role.obsErr), .floats (List.replicate 3 0)),
       (("seaSurfaceHeightAnomaly", Role.qc), .ints (List.replicate 3 0))]
  , varAttrs := initVarAttrs ++
      [((("seaSurfaceHeightAnomaly", Role.obsVal), "units"), .str "m"),
       ((("seaSurfaceHeightAnomaly", Role.obsErr), "units"), .str "m"),
       ((("seaSurfaceHeightAnomaly", Role.obsVal), "_FillValue"), .flo (-999)),
       ((("seaSurfaceHeightAnomaly", Role.obsErr), "_FillValue"), .flo (-999)),
       ((("seaSurfaceHeightAnomaly", Role.qc), "_FillValue"), .int int_missing_value)] }

/-- A source file that has a `time` dimension but no variables at all, so that
`_read` fails at its first variable lookup. -/
def badFile : NcFile := { dims := [("time", 2)], vars := [] }

/-! Basic facts about `rhe` and the module-level date constants. -/

theorem epochString_eq : epochString = "1970-01-01T00:00:00" := by decide

theorem refTimeRadsDays_eq : refTimeRadsDays = -40587 := by decide

theorem epochDays_eq : epochDays = 0 := by decide

theorem rhe_cases (q : ℚ) : rhe q = ⌊q⌋ ∨ rhe q = ⌊q⌋ + 1 := by
  unfold rhe
  split_ifs <;> simp

theorem floor_le_rhe (q : ℚ) : ⌊q⌋ ≤ rhe q := by
  rcases rhe_cases q with h | h <;> omega

theorem rhe_le_floor_succ (q : ℚ) : rhe q ≤ ⌊q⌋ + 1 := by
  rcases rhe_cases q with h | h <;> omega

theorem rhe_intCast (n : ℤ) : rhe (n : ℚ) = n := by
  unfold rhe
  rw [Int.floor_intCast]
  simp

theorem rhe_mono {a b : ℚ} (hab : a ≤ b) : rhe a ≤ rhe b := by
  have hf : ⌊a⌋ ≤ ⌊b⌋ := Int.floor_le_floor hab
  rcases eq_or_lt_of_le hf with heq | hlt
  · have hfa : ((⌊a⌋ : ℚ)) ≤ a := Int.floor_le a
    have h1 : a - ⌊a⌋ ≤ b - ⌊a⌋ := by linarith
    unfold rhe
    rw [← heq]
    split_ifs <;> first | omega | linarith
  · have h1 := rhe_le_floor_succ a
    have h2 := floor_le_rhe b
    omega

theorem timedelta_microseconds_intCast (n : ℤ) :
    timedelta_microseconds (n : ℚ) = n * 86400000000 := by
  unfold timedelta_microseconds
  have h : ((n : ℚ)) * 86400000000 = ((n * 86400000000 : ℤ) : ℚ) := by push_cast; ring
  rw [h, rhe_intCast]

/-- Closed form of `normalize_time` on whole-day offsets. -/
theorem normalize_time_intCast (n : ℤ) :
    normalize_time (n : ℚ) = (n - 40587) * 86400 := by
  unfold normalize_time
  rw [timedelta_microseconds_intCast, refTimeRadsDays_eq, epochDays_eq]
  have h : (((-40587 - 0) * 86400 : ℤ) : ℚ) + ((n * 86400000000 : ℤ) : ℚ) / 1000000
      = (((n - 40587) * 86400 : ℤ) : ℚ) := by push_cast; ring
  rw [h, rhe_intCast]


/-! Structural lemmas about `_read`. -/

theorem obsvars_fst : obsvars[0]! = "seaSurfaceHeightAnomaly" := rfl

theorem obsvars_snd : obsvars[1]! = "sla" := rfl

theorem readTimes_ok_length (f : NcFile) (s : String) :
    ∀ is ys, readTimes f s is = .ok ys → ys.length = is.length := by
  intro is
  induction is with
  | nil => intro ys h; simp [readTimes] at h; simp [← h]
  | cons i is ih =>
    intro ys h
    simp only [readTimes] at h
    split at h
    · exact absurd h (by simp)
    · split at h
      · exact absurd h (by simp)
      · split at h
        · exact absurd h (by simp)
        · rename_i rest hrest
          cases h
          simp [ih rest hrest]

/-- A successful run of the `locationKeyList` loop yields exactly the three
metadata entries, with the source `lat` / `lon` arrays passed through and the
time array produced by the conversion loop. -/
theorem readMetas_ok_elim (f : NcFile) (n : Nat) (ms : List ((String × Role) × DataArr))
    (h : readMetas f n locationKeyList = .ok ms) :
    ∃ la lo ti, f.var "lat" = some la ∧ f.var "lon" = some lo ∧
      readTimes f "time_mjd" (List.range n) = .ok ti ∧ ti.length = n ∧
      ms = [(("latitude", Role.metaData), .floats la.data),
            (("longitude", Role.metaData), .floats lo.data),
            (("dateTime", Role.metaData), .ints ti)] := by
  simp only [locationKeyList, readMetas, readMeta] at h
  simp only [String.reduceEq, reduceIte] at h
  cases hla : f.var "lat" with
  | none => rw [hla] at h; exact absurd h (by simp)
  | some la =>
    rw [hla] at h
    cases hlo : f.var "lon" with
    | none => rw [hlo] at h; exact absurd h (by simp)
    | some lo =>
      rw [hlo] at h
      cases hti : readTimes f "time_mjd" (List.range n) with
      | error e => rw [hti] at h; exact absurd h (by simp)
      | ok ti =>
        rw [hti] at h
        simp only [Except.ok.injEq] at h
        exact ⟨la, lo, ti, rfl, rfl, rfl,
          by rw [readTimes_ok_length f "time_mjd" (List.range n) ti hti, List.length_range],
          h.symm⟩

/-- Anatomy of a successful `_read`: every lookup it performs succeeded, and the
assembled object is exactly the one built from those lookups. -/
theorem readBody_ok_elim (f : NcFile) (out : ObsOutput) (h : readBody f = .ok out) :
    ∃ nlocs la lo ti slaVar slaUnits slaFill,
      f.dim "time" = some nlocs ∧
      f.var "lat" = some la ∧ f.var "lon" = some lo ∧
      readTimes f "time_mjd" (List.range nlocs) = .ok ti ∧ ti.length = nlocs ∧
      f.var "sla" = some slaVar ∧ slaVar.units = some slaUnits ∧
      slaVar.fillValue = some slaFill ∧
      out.nlocs = nlocs ∧
      out.dimDict = [("Location", nlocs)] ∧
      out.varDims = [("seaSurfaceHeightAnomaly", ["Location"])] ∧
      out.data =
        [(("latitude", Role.metaData), .floats la.data),
         (("longitude", Role.metaData), .floats lo.data),
         (("dateTime", Role.metaData), .ints ti),
         (("seaSurfaceHeightAnomaly", Role.obsVal), .floats slaVar.data),
         (("seaSurfaceHeightAnomaly", Role.obsErr), .floats (List.replicate nlocs 0)),
         (("seaSurfaceHeightAnomaly", Role.qc), .ints (List.replicate nlocs 0))] ∧
      out.varAttrs = initVarAttrs ++
        [((("seaSurfaceHeightAnomaly", Role.obsVal), "units"), .str slaUnits),
         ((("seaSurfaceHeightAnomaly", Role.obsErr), "units"), .str slaUnits),
         ((("seaSurfaceHeightAnomaly", Role.obsVal), "_FillValue"), .flo slaFill),
         ((("seaSurfaceHeightAnomaly", Role.obsErr), "_FillValue"), .flo slaFill),
         ((("seaSurfaceHeightAnomaly", Role.qc), "_FillValue"), .int int_missing_value)] := by
  unfold readBody at h
  rw [obsvars_fst, obsvars_snd] at h
  split at h
  · exact absurd h (by simp)
  · rename_i nlocs hn
    split at h
    · exact absurd h (by simp)
    · rename_i ms hm
      obtain ⟨la, lo, ti, hla, hlo, hti, hlen, hms⟩ := readMetas_ok_elim f nlocs ms hm
      split at h
      · exact absurd h (by simp)
      · rename_i slaVar hsla
        split at h
        · exact absurd h (by simp)
        · rename_i slaUnits hu
          split at h
          · exact absurd h (by simp)
          · rename_i slaFill hf
            simp only [Except.ok.injEq] at h
            subst hms
            refine ⟨nlocs, la, lo, ti, slaVar, slaUnits, slaFill, hn, hla, hlo, hti,
              hlen, hsla, hu, hf, ?_, ?_, ?_, ?_, ?_⟩ <;> (rw [← h]; try simp)

/-! Facts about the formatted reference datetime. -/

theorem hasTz_noon_suffix (p : String) :
    hasTzOffset (p ++ "T" ++ "12" ++ ":" ++ "00" ++ ":" ++ "00" ++ "") = false := by
  have h : (p ++ "T" ++ "12" ++ ":" ++ "00" ++ ":" ++ "00" ++ "").data
      = p.data ++ ('T' :: '1' :: '2' :: ':' :: '0' :: '0' :: ':' :: '0' :: '0' :: []) := by
    simp only [String.data_append]
    simp
  unfold hasTzOffset hasTzOffsetL
  rw [h, List.reverse_append]
  rfl

/-- On the nominal datetimes `main` constructs (naive, noon), the `%z` directive
contributes nothing and the formatted string ends with the seconds field. -/
theorem strftimeRef_fdateOf (jd : ℤ) :
    strftimeRef (fdateOf jd)
      = strftimeDate (fdateOf jd) ++ "T" ++ "12" ++ ":" ++ "00" ++ ":" ++ "00" ++ "" := by
  unfold strftimeRef
  rw [show (fdateOf jd).hour = 12 from rfl, show (fdateOf jd).minute = 0 from rfl,
    show (fdateOf jd).second = 0 from rfl, show strftimeZ (fdateOf jd) = "" from rfl,
    show padNat 2 12 = "12" from rfl, show padNat 2 0 = "00" from rfl]

theorem naive_no_offset (jd : ℤ) : hasTzOffset (strftimeRef (fdateOf jd)) = false := by
  rw [strftimeRef_fdateOf]
  exact hasTz_noon_suffix _

/-! The claims. -/

/-- C1: the time-normalization function maps the reference day-offset
`d = 40587.0` (1970-01-01 as days since 1858-11-17) to exactly `0` seconds, and
`d = 40588.0` (one day later) to exactly `86400` seconds. -/
theorem claim1_reference_day_offsets :
    normalize_time 40587 = 0 ∧ normalize_time 40588 = 86400 := by
  have h1 := normalize_time_intCast 40587
  have h2 := normalize_time_intCast 40588
  norm_num at h1 h2
  exact ⟨h1, h2⟩

/-- C2: for all day-offset values, `normalize_time` is deterministic (equal
inputs give equal outputs) and monotone (`d1 < d2` implies
`normalize_time d1 ≤ normalize_time d2`). -/
theorem claim2_normalize_time_deterministic_monotone (d1 d2 : ℚ) :
    (d1 = d2 → normalize_time d1 = normalize_time d2) ∧
    (d1 < d2 → normalize_time d1 ≤ normalize_time d2) := by
  refine ⟨fun h => by rw [h], fun h => ?_⟩
  have h1 : timedelta_microseconds d1 ≤ timedelta_microseconds d2 := by
    unfold timedelta_microseconds
    apply rhe_mono
    have h86 : (0 : ℚ) ≤ 86400000000 := by norm_num
    exact mul_le_mul_of_nonneg_right h.le h86
  unfold normalize_time
  apply rhe_mono
  have h2 : ((timedelta_microseconds d1 : ℚ)) ≤ ((timedelta_microseconds d2 : ℚ)) := by
    exact_mod_cast h1
  have h3 : ((timedelta_microseconds d1 : ℚ)) / 1000000
      ≤ ((timedelta_microseconds d2 : ℚ)) / 1000000 := by linarith
  linarith

/-- Witness for C2 at the concrete inputs `d1 = 1`, `d2 = 2`. -/
theorem claim2_witness :
    normalize_time 1 = normalize_time 1 ∧ normalize_time 1 ≤ normalize_time 2 :=
  ⟨(claim2_normalize_time_deterministic_monotone 1 1).1 rfl,
   (claim2_normalize_time_deterministic_monotone 1 2).2 (by norm_num)⟩

/-- C3: for every source file satisfying the input contract whose read succeeds,
the assembled `self.data` holds exactly six arrays and each has length `N`, the
size of the source `time` dimension. -/
theorem claim3_output_array_lengths (f : NcFile) (n : Nat) (out : ObsOutput)
    (hc : InputContract f n) (h : readBody f = .ok out) :
    out.nlocs = n ∧ out.data.length = 6 ∧ ∀ p ∈ out.data, p.2.length = n := by
  obtain ⟨hn, ⟨la', hla', hlla⟩, ⟨lo', hlo', hllo⟩, ⟨sv', hsv', hlsv⟩⟩ := hc
  obtain ⟨nl, la, lo, ti, slaVar, su, sf, hn2, hla, hlo, hti, hlen, hsla, hu, hf,
    ho1, ho2, ho3, ho4, ho5⟩ := readBody_ok_elim f out h
  rw [hn] at hn2
  obtain rfl : n = nl := Option.some.inj hn2
  rw [hla'] at hla
  obtain rfl : la' = la := Option.some.inj hla
  rw [hlo'] at hlo
  obtain rfl : lo' = lo := Option.some.inj hlo
  rw [hsv'] at hsla
  obtain rfl : sv' = slaVar := Option.some.inj hsla
  refine ⟨ho1, by rw [ho4]; rfl, ?_⟩
  intro p hp
  rw [ho4] at hp
  simp only [List.mem_cons, List.not_mem_nil, or_false] at hp
  rcases hp with rfl | rfl | rfl | rfl | rfl | rfl <;>
    simp [DataArr.length, hlla, hllo, hlsv, hlen]

/-- Witness for C3: the three-location example file yields six arrays of
length 3. -/
theorem claim3_witness :
    exOut.nlocs = 3 ∧ exOut.data.length = 6 ∧ ∀ p ∈ exOut.data, p.2.length = 3 :=
  claim3_output_array_lengths exFile 3 exOut
    ⟨rfl, ⟨_, rfl, rfl⟩, ⟨_, rfl, rfl⟩, ⟨_, rfl, rfl⟩⟩ rfl

/-- C4: for every file whose read succeeds, the assembled observation triplet
has the source `sla` array passed through unchanged as the value array, an
all-zero float array of length `N` as the error array, and an all-zero integer
array of length `N` as the QC array, whatever the observation values are. -/
theorem claim4_value_error_qc_arrays (f : NcFile) (out : ObsOutput) (v : NcVar)
    (hv : f.var "sla" = some v) (h : readBody f = .ok out) :
    dictGet ("seaSurfaceHeightAnomaly", Role.obsVal) out.data = some (.floats v.data) ∧
    dictGet ("seaSurfaceHeightAnomaly", Role.obsErr) out.data
      = some (.floats (List.replicate out.nlocs 0)) ∧
    dictGet ("seaSurfaceHeightAnomaly", Role.qc) out.data
      = some (.ints (List.replicate out.nlocs 0)) := by
  obtain ⟨nl, la, lo, ti, slaVar, su, sf, hn2, hla, hlo, hti, hlen, hsla, hu, hf,
    ho1, ho2, ho3, ho4, ho5⟩ := readBody_ok_elim f out h
  rw [hv] at hsla
  obtain rfl : v = slaVar := Option.some.inj hsla
  rw [ho4, ho1]
  refine ⟨?_, ?_, ?_⟩ <;> simp [dictGet]

/-- Witness for C4 on the three-location example file. -/
theorem claim4_witness :
    dictGet ("seaSurfaceHeightAnomaly", Role.obsVal) exOut.data = some (.floats [1, 2, 3]) ∧
    dictGet ("seaSurfaceHeightAnomaly", Role.obsErr) exOut.data
      = some (.floats (List.replicate exOut.nlocs 0)) ∧
    dictGet ("seaSurfaceHeightAnomaly", Role.qc) exOut.data
      = some (.ints (List.replicate exOut.nlocs 0)) :=
  claim4_value_error_qc_arrays exFile exOut ⟨[1, 2, 3], some "m", some (-999)⟩ rfl rfl

/-- C5: after assembly, the attribute table has a `_FillValue` entry for each of
the three metadata fields and for the value, error and QC roles, with the
latitude entry equal to the 32-bit-float sentinel, and the value and error roles
also carry the `units` attribute copied verbatim from the source `sla`
variable. -/
theorem claim5_fill_value_and_units_attributes (f : NcFile) (out : ObsOutput)
    (v : NcVar) (u : String) (q : ℚ)
    (hv : f.var "sla" = some v) (hu : v.units = some u) (hq : v.fillValue = some q)
    (h : readBody f = .ok out) :
    dictGet (("latitude", Role.metaData), "_FillValue") out.varAttrs
      = some (.flo float_missing_value) ∧
    dictGet (("longitude", Role.metaData), "_FillValue") out.varAttrs
      = some (.flo float_missing_value) ∧
    dictGet (("dateTime", Role.metaData), "_FillValue") out.varAttrs
      = some (.int long_missing_value) ∧
    dictGet (("seaSurfaceHeightAnomaly", Role.obsVal), "_FillValue") out.varAttrs
      = some (.flo q) ∧
    dictGet (("seaSurfaceHeightAnomaly", Role.obsErr), "_FillValue") out.varAttrs
      = some (.flo q) ∧
    dictGet (("seaSurfaceHeightAnomaly", Role.qc), "_FillValue") out.varAttrs
      = some (.int int_missing_value) ∧
    dictGet (("seaSurfaceHeightAnomaly", Role.obsVal), "units") out.varAttrs
      = some (.str u) ∧
    dictGet (("seaSurfaceHeightAnomaly", Role.obsErr), "units") out.varAttrs
      = some (.str u) := by
  obtain ⟨nl, la, lo, ti, slaVar, su, sf, hn2, hla, hlo, hti, hlen, hsla, huV, hfV,
    ho1, ho2, ho3, ho4, ho5⟩ := readBody_ok_elim f out h
  rw [hv] at hsla
  obtain rfl : v = slaVar := Option.some.inj hsla
  rw [hu] at huV
  obtain rfl : u = su := Option.some.inj huV
  rw [hq] at hfV
  obtain rfl : q = sf := Option.some.inj hfV
  rw [ho5]
  refine ⟨?_, ?_, ?_, ?_, ?_, ?_, ?_, ?_⟩ <;>
    simp [initVarAttrs, locationKeyList, dictGet, missing_vals]

/-- Witness for C5 on the three-location example file (units `"m"`, fill value
`-999`). -/
theorem claim5_witness :
    dictGet (("latitude", Role.metaData), "_FillValue") exOut.varAttrs
      = some (.flo float_missing_value) ∧
    dictGet (("longitude", Role.metaData), "_FillValue") exOut.varAttrs
      = some (.flo float_missing_value) ∧
    dictGet (("dateTime", Role.metaData), "_FillValue") exOut.varAttrs
      = some (.int long_missing_value) ∧
    dictGet (("seaSurfaceHeightAnomaly", Role.obsVal), "_FillValue") exOut.varAttrs
      = some (.flo (-999)) ∧
    dictGet (("seaSurfaceHeightAnomaly", Role.obsErr), "_FillValue") exOut.varAttrs
      = some (.flo (-999)) ∧
    dictGet (("seaSurfaceHeightAnomaly", Role.qc), "_FillValue") exOut.varAttrs
      = some (.int int_missing_value) ∧
    dictGet (("seaSurfaceHeightAnomaly", Role.obsVal), "units") exOut.varAttrs
      = some (.str "m") ∧
    dictGet (("seaSurfaceHeightAnomaly", Role.obsErr), "units") exOut.varAttrs
      = some (.str "m") :=
  claim5_fill_value_and_units_attributes exFile exOut
    ⟨[1, 2, 3], some "m", some (-999)⟩ "m" (-999) rfl rfl rfl rfl

/-- C6: a date argument of length 8 parses as calendar `YYYYMMDD`
(`"20160201"` is 2016-02-01), one of length 7 parses as ordinal `YYYYDOY`
(`"2016032"` is day 32 of 2016, i.e. the same 2016-02-01), and any other length
makes `main` exit immediately with a diagnostic, before any file I/O (no
invocation list is ever produced). -/
theorem claim6_date_string_disambiguation :
    parseDateArg "start" "20160201" = .ok (days_from_civil 2016 2 1) ∧
    parseDateArg "start" "2016032" = .ok (days_from_civil 2016 1 1 + 31) ∧
    days_from_civil 2016 2 1 = days_from_civil 2016 1 1 + 31 ∧
    (∀ s : String, s.length ≠ 8 → s.length ≠ 7 →
      ∀ (endArg dir : String) (isfile : String → Bool),
        mainBatch s endArg dir isfile = .error "Error: invalid start date") ∧
    (∀ s endArg : String, endArg.length ≠ 8 → endArg.length ≠ 7 →
      (∃ d, parseDateArg "start" s = .ok d) →
      ∀ (dir : String) (isfile : String → Bool),
        mainBatch s endArg dir isfile = .error "Error: invalid end date") := by
  refine ⟨rfl, rfl, by decide, ?_, ?_⟩
  · intro s h8 h7 endArg dir isfile
    unfold mainBatch parseDateArg
    rw [if_neg h8, if_neg h7]
    rfl
  · intro s endArg h8 h7 hok dir isfile
    obtain ⟨d, hd⟩ := hok
    unfold mainBatch
    rw [hd]
    unfold parseDateArg
    rw [if_neg h8, if_neg h7]
    rfl

/-- Witness for C6: a 6-digit start string and a 9-digit end string are both
rejected with the respective diagnostics. -/
theorem claim6_witness :
    mainBatch "201602" "20160202" "in" (fun _ => false) = .error "Error: invalid start date" ∧
    mainBatch "20160201" "201602011" "in" (fun _ => false) = .error "Error: invalid end date" :=
  ⟨claim6_date_string_disambiguation.2.2.2.1 "201602" (by decide) (by decide)
      "20160202" "in" (fun _ => false),
   claim6_date_string_disambiguation.2.2.2.2 "20160201" "201602011" (by decide) (by decide)
      ⟨days_from_civil 2016 2 1, rfl⟩ "in" (fun _ => false)⟩

/-- C7: the batch loop visits exactly the candidates
`{satellite}_{YYYYDDD}.nc` for the three hardcoded satellites over every day of
the inclusive range (nominal time 12:00:00 that day), invokes the conversion
precisely for those whose file exists, and skips the rest silently; in the
concrete two-day scenario with a single existing file on day two the conversion
runs exactly once. -/
theorem claim7_batch_candidates (jday_st jday_end : ℤ) (dir : String)
    (isfile : String → Bool) :
    batchLoop jday_st jday_end dir isfile
      = (specCandidates jday_st jday_end dir).filter (fun c => isfile c.path) ∧
    (∀ c ∈ specCandidates jday_st jday_end dir,
      c.nominalTime.hour = 12 ∧ c.nominalTime.minute = 0 ∧ c.nominalTime.second = 0) ∧
    batchLoop (days_from_civil 2016 2 1) (days_from_civil 2016 2 2) "in"
        (fun p => p == "in/c2_2016033.nc")
      = [⟨"in/c2_2016033.nc", fdateOf (days_from_civil 2016 2 2)⟩] := by
  refine ⟨?_, ?_, by decide⟩
  · unfold batchLoop specCandidates
    rw [List.filter_flatten, List.map_map]
    apply congrArg
    apply List.map_congr_left
    intro sat hsat
    simp only [Function.comp_apply]
    rw [List.filter_map]
    apply congrArg
    apply List.filter_congr
    intro j hj
    simp [Function.comp]
  · intro c hc
    simp only [specCandidates, List.mem_flatten, List.mem_map] at hc
    obtain ⟨l, ⟨sat, hsat, rfl⟩, hcl⟩ := hc
    rw [List.mem_map] at hcl
    obtain ⟨j, hj, rfl⟩ := hcl
    exact ⟨rfl, rfl, rfl⟩

/-- Witness for C7: a concrete candidate of the two-day scenario carries the
nominal time 12:00:00. -/
theorem claim7_witness :
    (⟨"in/c2_2016032.nc", fdateOf (days_from_civil 2016 2 1)⟩ : Invocation).nominalTime.hour = 12 ∧
    (⟨"in/c2_2016032.nc", fdateOf (days_from_civil 2016 2 1)⟩ : Invocation).nominalTime.minute = 0 ∧
    (⟨"in/c2_2016032.nc", fdateOf (days_from_civil 2016 2 1)⟩ : Invocation).nominalTime.second = 0 :=
  (claim7_batch_candidates (days_from_civil 2016 2 1) (days_from_civil 2016 2 2) "in"
      (fun p => p == "in/c2_2016033.nc")).2.1
    ⟨"in/c2_2016032.nc", fdateOf (days_from_civil 2016 2 1)⟩ (by decide)

/-- C8, counterexample: the claim that the program offers a single-file mode
with required `--input`, `--output` and `--date` options is false — the one
entry point's argument table carries none of those options. -/
theorem claim8_counterexample :
    ¬ ("--input" ∈ cliArgs.map ArgSpec.long) ∧
    ¬ ("--output" ∈ cliArgs.map ArgSpec.long) ∧
    ¬ ("--date" ∈ cliArgs.map ArgSpec.long) := by decide

/-- C8, amended: the program offers only the batch mode; its command line
accepts exactly the four required options `--start`, `--end`,
`--input_directory` and `--output_directory` (shorts `-s`, `-e`, `-i`, `-o`),
and no single-file `--input`/`--output`/`--date` mode exists. -/
theorem claim8_amended :
    cliArgs.map ArgSpec.long = ["--start", "--end", "--input_directory", "--output_directory"] ∧
    cliArgs.map ArgSpec.short = ["-s", "-e", "-i", "-o"] ∧
    (∀ a ∈ cliArgs, a.required = true) := by decide

/-- C9, counterexample: for the run over 2016-02-01, the `datetimeReference`
global attribute is the string `"2016-02-01T12:00:00"`, which carries no
timezone offset (the `%z` directive yields the empty string on the naive
nominal datetime), contradicting the claim that the formatted string includes
one. -/
theorem claim9_counterexample :
    dictGet "datetimeReference"
        (globalAttrs "in/c2_2016032.nc" (fdateOf (days_from_civil 2016 2 1)))
      = some (.str "2016-02-01T12:00:00") ∧
    hasTzOffset "2016-02-01T12:00:00" = false :=
  ⟨rfl, by decide⟩

/-- C9, amended: for every converted file, the global attribute map is the
fixed five-entry template — converter name, version tag, source file name,
free-text description, and the nominal reference datetime (noon, naive)
formatted as an ISO-8601-like string that carries no timezone offset. -/
theorem claim9_amended (file_input : String) (jd : ℤ) :
    dictGet "converter" (globalAttrs file_input (fdateOf jd)) = some (.str converterName) ∧
    dictGet "ioda_version" (globalAttrs file_input (fdateOf jd)) = some (.int 2) ∧
    dictGet "sourceFiles" (globalAttrs file_input (fdateOf jd)) = some (.str file_input) ∧
    dictGet "description" (globalAttrs file_input (fdateOf jd)) = some (.str descriptionText) ∧
    dictGet "datetimeReference" (globalAttrs file_input (fdateOf jd))
      = some (.str (strftimeRef (fdateOf jd))) ∧
    (fdateOf jd).hour = 12 ∧ (fdateOf jd).tzOffsetMinutes = none ∧
    hasTzOffset (strftimeRef (fdateOf jd)) = false := by
  refine ⟨?_, ?_, ?_, ?_, ?_, rfl, rfl, naive_no_offset jd⟩ <;> simp [globalAttrs, dictGet]

/-- C10, counterexample: on a file whose read fails early (no variables, so the
`lat` lookup raises), the source handle is not closed when the error
propagates, contradicting the claim that it is closed on every exit path. -/
theorem claim10_counterexample :
    (readTrace badFile).1 = .error (.missingVar "lat") ∧ (readTrace badFile).2 = false :=
  ⟨rfl, rfl⟩

/-- C10, amended: the source handle is closed exactly on the successful exit
path of `_read`; when the read fails, the exception propagates with the handle
left open. -/
theorem claim10_amended (f : NcFile) :
    (readTrace f).2 = true ↔ ∃ out, (readTrace f).1 = .ok out := by
  cases hb : readBody f with
  | ok out => simp [readTrace, hb]
  | error e => simp [readTrace, hb]

end RadsSla2Ioda
